import Mathlib

/-!
Verification of the bjishk monitoring core (Go sources under `server/`).

The definitions below are a shallow embedding of the Go code:

* `performCheckStep` embeds `monitor.PerformCheck` (monitor.go), the per-tick
  state machine for a monitored service, with the database calls
  (`UpdateService`, `AddLog`, `AddNotification`) made explicit: the persisted
  service row is threaded as a `ServiceState`, and the success of each
  persistence call is an input flag (`PersistFlags`).  A failed call creates
  no row; a failed `UpdateService` makes the function return early.
* `performPeerCheckStep` embeds `federation.PerformPeerCheck` (federation.go).
* `checkService` embeds `monitor.CheckService`: the outcome of each HTTP
  attempt (request-creation error, transport error, or a response with a
  status code) is an input `Nat → SvcAttempt`; the content-type check, body
  read and `<title>` regex of the Go code are abstracted into the attempt's
  `title` field (empty when not HTML or no title was found).  The function
  returns the `CheckResult` together with the number of attempts made and
  the list of sleeps (in seconds) performed between attempts.
* `checkPeer` embeds `federation.CheckPeer`, with the JSON decode outcome of
  a response body as an explicit `PeerBody`.
* `getPendingNotifications`, `markNotificationSent`, `processNotifications`
  embed the corresponding functions of database.go and notification.go; the
  database is a list of `NotifRow` and the SMTP send is an oracle
  `EmailAttempt → Option String` (`none` = delivered, `some e` = error `e`).

Timestamps are abstract `Nat`s, durations are in the units the Go code uses
(milliseconds for response times, seconds for delays).
-/

namespace Bjishk

/-- Stored status of a monitored target (the `status` column; gorm default
`"unknown"`, otherwise only ever written from a probe result). -/
inductive Status
  | unknown
  | up
  | down
deriving DecidableEq, Repr

/-- Status carried by a probe result: `CheckService` and `CheckPeer` only ever
produce the strings `"up"` and `"down"`. -/
inductive PStatus
  | up
  | down
deriving DecidableEq, Repr

/-- A probe-result status read back as a stored status (in Go both are plain
strings, so the comparison `previousStatus != newStatus` is heterogeneous). -/
def PStatus.toStatus : PStatus → Status
  | .up => .up
  | .down => .down

/-- `monitor.CheckResult`. -/
structure CheckResult where
  status : PStatus
  responseTime : Nat
  title : String
  error : String
deriving DecidableEq, Repr

/-- The mutable columns of `models.Service` that the monitoring core reads or
writes, plus representative configuration/identity columns (`url`,
`caregiver`, `checkInterval`) used to state frame conditions. -/
structure ServiceState where
  url : String
  name : Option String
  caregiver : Option String
  checkInterval : Nat
  lastCheck : Option Nat
  status : Status
  consecutiveFailures : Nat
  responseTime : Option Nat
deriving DecidableEq, Repr

/-- Success of the three persistence calls a `PerformCheck` cycle can issue
(`UpdateService`/`UpdatePeer`, `AddLog`, `AddNotification`). -/
structure PersistFlags where
  updateOk : Bool
  logOk : Bool
  notifOk : Bool
deriving DecidableEq, Repr

/-- All persistence calls succeed. -/
def PersistFlags.allOk : PersistFlags := ⟨true, true, true⟩

/-- Kind of a created notification row (derived from which branch of
`PerformCheck` created it). -/
inductive NotifKind
  | down
  | up
deriving DecidableEq, Repr

/-- A `models.Notification` row as created by the state machine
(`sent` starts `false`, `error` starts empty). -/
structure CreatedNotif where
  serviceId : Option Nat
  peerId : Option Nat
  kind : NotifKind
  message : String
deriving DecidableEq, Repr

/-- A `models.Log` row as created by `AddLog`. -/
structure LogEntry where
  serviceId : Option Nat
  peerId : Option Nat
  status : Status
  responseTime : Option Nat
  message : Option String
deriving DecidableEq, Repr

/-- Message of a service DOWN notification (monitor.go). -/
def serviceDownMsg (url : String) (failures : Nat) (err : String) : String :=
  "Service " ++ url ++ " is DOWN (" ++ toString failures ++
    " consecutive failures). Error: " ++ err

/-- Message of a service UP notification (monitor.go). -/
def serviceUpMsg (url : String) (responseTime : Nat) : String :=
  "Service " ++ url ++ " is back UP (response time: " ++ toString responseTime ++ "ms)"

/-- Result of one state-machine cycle: the persisted row afterwards, the log
rows created, and the notification rows created. -/
structure StepOut (σ : Type) where
  state : σ
  logs : List LogEntry
  notifs : List CreatedNotif
deriving DecidableEq, Repr

/-- `monitor.PerformCheck`: one probe-and-record cycle for a service.
`r` is the `CheckService` result, `now` the wall clock, `f` the persistence
outcomes.  Mirrors the Go control flow: build `updateData` (always
`last_check`, `status`, `consecutive_failures`; `response_time` only when
positive; `name` only when the row has no name and a title was extracted),
call `UpdateService` and return early on failure, then `AddLog` (failure only
logged), then the notification branches. -/
def performCheckStep (serviceId : Nat) (s : ServiceState) (r : CheckResult)
    (now : Nat) (f : PersistFlags) : StepOut ServiceState :=
  let previousStatus := s.status
  let newStatus := r.status.toStatus
  let consecutiveFailures := if r.status = .down then s.consecutiveFailures + 1 else 0
  let s1 : ServiceState :=
    { s with lastCheck := some now, status := newStatus,
             consecutiveFailures := consecutiveFailures }
  let s2 : ServiceState :=
    if r.responseTime > 0 then { s1 with responseTime := some r.responseTime } else s1
  let s3 : ServiceState :=
    if s.name = none ∧ r.title ≠ "" then { s2 with name := some r.title } else s2
  if f.updateOk = false then
    { state := s, logs := [], notifs := [] }
  else
    let message : Option String := if r.error ≠ "" then some r.error else none
    let responseTime : Option Nat := if r.responseTime > 0 then some r.responseTime else none
    let logs : List LogEntry :=
      if f.logOk then [⟨some serviceId, none, newStatus, responseTime, message⟩] else []
    let notifs : List CreatedNotif :=
      if previousStatus ≠ newStatus ∧ newStatus = .down ∧ consecutiveFailures ≥ 3 then
        if f.notifOk then
          [⟨some serviceId, none, .down, serviceDownMsg s.url consecutiveFailures r.error⟩]
        else []
      else if previousStatus ≠ newStatus ∧ newStatus = .up then
        if f.notifOk then
          [⟨some serviceId, none, .up, serviceUpMsg s.url r.responseTime⟩]
        else []
      else []
    { state := s3, logs := logs, notifs := notifs }

/-- Input of one scheduled tick: the probe result, the wall clock, and the
persistence outcomes of that cycle. -/
structure TickIn where
  result : CheckResult
  now : Nat
  flags : PersistFlags
deriving DecidableEq, Repr

/-- A sequence of probe-and-record cycles for one service, returning the final
persisted row and all notification rows created along the way. -/
def runChecks (serviceId : Nat) (s : ServiceState) :
    List TickIn → ServiceState × List CreatedNotif
  | [] => (s, [])
  | t :: ts =>
    let o := performCheckStep serviceId s t.result t.now t.flags
    let rest := runChecks serviceId o.state ts
    (rest.1, o.notifs ++ rest.2)

/-- A freshly generated service row (`database.AddService`: status
`"unknown"`, gorm defaults `consecutive_failures = 0`, nullable columns
null). -/
def freshService (url : String) (checkInterval : Nat) (name : Option String) :
    ServiceState :=
  { url := url, name := name, caregiver := none, checkInterval := checkInterval,
    lastCheck := none, status := .unknown, consecutiveFailures := 0,
    responseTime := none }

/-- Number of DOWN notifications in a list of created rows. -/
def downNotifCount (ns : List CreatedNotif) : Nat :=
  (ns.filter (fun n => n.kind = NotifKind.down)).length

/-- Number of UP notifications in a list of created rows. -/
def upNotifCount (ns : List CreatedNotif) : Nat :=
  (ns.filter (fun n => n.kind = NotifKind.up)).length

/-- An `up` probe result with a given response time. -/
def upProbe (rt : Nat) : CheckResult := ⟨.up, rt, "", ""⟩

/-- A `down` probe result with a given error string (the Go code never sets
`ResponseTime` on the down paths, so it is the zero value `0`). -/
def downProbe (err : String) : CheckResult := ⟨.down, 0, "", err⟩

/-- A tick whose persistence calls all succeed. -/
def tickOk (r : CheckResult) (now : Nat) : TickIn := ⟨r, now, PersistFlags.allOk⟩

/-- The mutable columns of `models.Peer` the federation core reads or writes,
plus the identity columns. -/
structure PeerState where
  url : String
  adminEmail : String
  lastCheck : Option Nat
  status : Status
  consecutiveFailures : Nat
deriving DecidableEq, Repr

/-- The pair `federation.CheckPeer` returns: a status string and an optional
error (`nil` exactly on the up paths). -/
structure PeerCheckResult where
  status : PStatus
  errMsg : Option String
deriving DecidableEq, Repr

/-- Message of a peer DOWN notification (federation.go). -/
def peerDownMsg (url : String) (failures : Nat) (admin : String) : String :=
  "Peer " ++ url ++ " is DOWN (" ++ toString failures ++
    " consecutive failures). Admin: " ++ admin

/-- Message of a peer UP notification (federation.go). -/
def peerUpMsg (url : String) (admin : String) : String :=
  "Peer " ++ url ++ " is back UP. Admin: " ++ admin

/-- `federation.PerformPeerCheck`: one probe-and-record cycle for a peer.
Mirrors the Go control flow: `UpdatePeer` with `last_check`, `status`,
`consecutive_failures` (early return on failure), then `AddLog` with a nil
response time and the check error as message, then the same notification
branches as the service path. -/
def performPeerCheckStep (peerId : Nat) (p : PeerState) (r : PeerCheckResult)
    (now : Nat) (f : PersistFlags) : StepOut PeerState :=
  let previousStatus := p.status
  let status := r.status.toStatus
  let consecutiveFailures := if r.status = .down then p.consecutiveFailures + 1 else 0
  let p1 : PeerState :=
    { p with lastCheck := some now, status := status,
             consecutiveFailures := consecutiveFailures }
  if f.updateOk = false then
    { state := p, logs := [], notifs := [] }
  else
    let logs : List LogEntry :=
      if f.logOk then [⟨none, some peerId, status, none, r.errMsg⟩] else []
    let notifs : List CreatedNotif :=
      if previousStatus ≠ status ∧ status = .down ∧ consecutiveFailures ≥ 3 then
        if f.notifOk then
          [⟨none, some peerId, .down, peerDownMsg p.url consecutiveFailures p.adminEmail⟩]
        else []
      else if previousStatus ≠ status ∧ status = .up then
        if f.notifOk then [⟨none, some peerId, .up, peerUpMsg p.url p.adminEmail⟩] else []
      else []
    { state := p1, logs := logs, notifs := notifs }

/-- Input of one peer tick. -/
structure PeerTickIn where
  result : PeerCheckResult
  now : Nat
  flags : PersistFlags
deriving DecidableEq, Repr

/-- A sequence of probe-and-record cycles for one peer. -/
def runPeerChecks (peerId : Nat) (p : PeerState) :
    List PeerTickIn → PeerState × List CreatedNotif
  | [] => (p, [])
  | t :: ts =>
    let o := performPeerCheckStep peerId p t.result t.now t.flags
    let rest := runPeerChecks peerId o.state ts
    (rest.1, o.notifs ++ rest.2)

/-- A freshly generated peer row (`database.AddPeer`). -/
def freshPeer (url : String) (adminEmail : String) : PeerState :=
  { url := url, adminEmail := adminEmail, lastCheck := none, status := .unknown,
    consecutiveFailures := 0 }

/-- Outcome of one HTTP attempt of `monitor.CheckService`: the GET request
could not be built, the transport failed (`client.Do`), or a response with a
status code and status text arrived.  `title` is the text the HTML `<title>`
extraction of the Go code yields for that response (empty when the content
type is not HTML, the body cannot be read, or no title matches), and
`elapsedMs` is the measured wall-clock time of the attempt in milliseconds. -/
inductive SvcAttempt
  | reqError (e : String)
  | transportError (e : String)
  | response (code : Nat) (statusText : String) (title : String) (elapsedMs : Nat)
deriving DecidableEq, Repr

/-- Whether an attempt outcome takes the failure path of `CheckService`
(anything but a 2xx response). -/
def SvcAttempt.isFailing : SvcAttempt → Bool
  | .response code _ _ _ => !(200 ≤ code && code < 300)
  | _ => true

/-- The `down` `CheckResult` `CheckService` builds from a failing attempt:
zero response time, no title, and an error string describing the failure
(`"Failed to create request: %v"`, `"Request failed: %v"`, or
`"HTTP %d %s"`). -/
def failingResult : SvcAttempt → CheckResult
  | .reqError e => ⟨.down, 0, "", "Failed to create request: " ++ e⟩
  | .transportError e => ⟨.down, 0, "", "Request failed: " ++ e⟩
  | .response code st _ _ => ⟨.down, 0, "", "HTTP " ++ toString code ++ " " ++ st⟩

/-- The retry loop of `monitor.CheckService` from attempt index `a` with
`fuel` retries still allowed (`fuel = retries - a` on entry).  On a failing
attempt with fuel left it sleeps `retryDelay` seconds and retries; the last
allowed attempt returns the failing result.  A 2xx response returns `up` with
the elapsed milliseconds and the extracted title.  Returns the result, the
number of attempts made, and the sleeps performed.  (The `"All retries
failed"` return after the Go loop is unreachable and not modelled.) -/
def checkServiceGo (retryDelay : Nat) (attempts : Nat → SvcAttempt) :
    Nat → Nat → CheckResult × Nat × List Nat
  | 0, a =>
    match attempts a with
    | .response code _ title ms =>
      if 200 ≤ code ∧ code < 300 then (⟨.up, ms, title, ""⟩, 1, [])
      else (failingResult (attempts a), 1, [])
    | _ => (failingResult (attempts a), 1, [])
  | fuel + 1, a =>
    match attempts a with
    | .response code _ title ms =>
      if 200 ≤ code ∧ code < 300 then (⟨.up, ms, title, ""⟩, 1, [])
      else
        let rest := checkServiceGo retryDelay attempts fuel (a + 1)
        (rest.1, rest.2.1 + 1, retryDelay :: rest.2.2)
    | _ =>
      let rest := checkServiceGo retryDelay attempts fuel (a + 1)
      (rest.1, rest.2.1 + 1, retryDelay :: rest.2.2)

/-- `monitor.CheckService` with retry count `retries` and delay `retryDelay`
(seconds), the attempt outcomes given by `attempts`. -/
def checkService (retries retryDelay : Nat) (attempts : Nat → SvcAttempt) :
    CheckResult × Nat × List Nat :=
  checkServiceGo retryDelay attempts retries 0

/-- JSON decode outcome of a peer health response body. -/
inductive PeerBody
  | decodeFailure
  | decoded (status : String)
deriving DecidableEq, Repr

/-- Outcome of one HTTP attempt of `federation.CheckPeer`. -/
inductive PeerAttempt
  | reqError (e : String)
  | transportError (e : String)
  | response (code : Nat) (statusText : String) (body : PeerBody)
deriving DecidableEq, Repr

/-- What `CheckPeer` returns for a 2xx response, from its body: a decoded
body with status `"ok"` is up, a decoded body with any other status is down,
and a body that fails to decode is up. -/
def peerBodyResult : PeerBody → PeerCheckResult
  | .decodeFailure => ⟨.up, none⟩
  | .decoded st =>
    if st = "ok" then ⟨.up, none⟩
    else ⟨.down, some "health check returned error status"⟩

/-- Whether a peer attempt takes the retry/failure path of `CheckPeer`
(anything but a 2xx response). -/
def PeerAttempt.isFailing : PeerAttempt → Bool
  | .response code _ _ => !(200 ≤ code && code < 300)
  | _ => true

/-- The pair `CheckPeer` returns from a failing attempt at the last allowed
retry. -/
def peerFailingResult : PeerAttempt → PeerCheckResult
  | .reqError e => ⟨.down, some e⟩
  | .transportError e => ⟨.down, some e⟩
  | .response code st _ => ⟨.down, some ("HTTP " ++ toString code ++ " " ++ st)⟩

/-- The retry loop of `federation.CheckPeer`, analogous to
`checkServiceGo`. -/
def checkPeerGo (retryDelay : Nat) (attempts : Nat → PeerAttempt) :
    Nat → Nat → PeerCheckResult × List Nat
  | 0, a =>
    match attempts a with
    | .response code _ body =>
      if 200 ≤ code ∧ code < 300 then (peerBodyResult body, [])
      else (peerFailingResult (attempts a), [])
    | _ => (peerFailingResult (attempts a), [])
  | fuel + 1, a =>
    match attempts a with
    | .response code _ body =>
      if 200 ≤ code ∧ code < 300 then (peerBodyResult body, [])
      else
        let rest := checkPeerGo retryDelay attempts fuel (a + 1)
        (rest.1, retryDelay :: rest.2)
    | _ =>
      let rest := checkPeerGo retryDelay attempts fuel (a + 1)
      (rest.1, retryDelay :: rest.2)

/-- `federation.CheckPeer` with retry count `retries`, returning the result
and the sleeps performed. -/
def checkPeer (retries retryDelay : Nat) (attempts : Nat → PeerAttempt) :
    PeerCheckResult × List Nat :=
  checkPeerGo retryDelay attempts retries 0

/-- Whether a peer attempt is a 2xx HTTP response. -/
def PeerAttempt.is2xx : PeerAttempt → Prop
  | .response code _ _ => 200 ≤ code ∧ code < 300
  | _ => False

/-- Whether a peer attempt's body is `"ok"` or undecodable (the two body
shapes `CheckPeer` answers `up` for on a 2xx response). -/
def PeerAttempt.bodyOkOrUndecodable : PeerAttempt → Prop
  | .response _ _ .decodeFailure => True
  | .response _ _ (.decoded st) => st = "ok"
  | _ => False

instance : DecidablePred PeerAttempt.is2xx := by
  intro a; unfold PeerAttempt.is2xx; cases a <;> infer_instance

instance : DecidablePred PeerAttempt.bodyOkOrUndecodable := by
  intro a
  unfold PeerAttempt.bodyOkOrUndecodable
  cases a with
  | response code st body => cases body <;> infer_instance
  | reqError e => infer_instance
  | transportError e => infer_instance

/-- The up-condition the specification states for a peer probe: HTTP status
2xx and the JSON body's `status` field equals `"ok"`. -/
def specPeerUp (a : PeerAttempt) : Prop :=
  match a with
  | .response code _ (.decoded st) => (200 ≤ code ∧ code < 300) ∧ st = "ok"
  | _ => False

instance : DecidablePred specPeerUp := by
  intro a
  unfold specPeerUp
  cases a with
  | response code st body => cases body <;> infer_instance
  | reqError e => infer_instance
  | transportError e => infer_instance

/-- A `models.Notification` row as stored in the notifications table.
`createdAt` is the gorm auto-create timestamp. -/
structure NotifRow where
  id : Nat
  serviceId : Option Nat
  peerId : Option Nat
  message : String
  sent : Bool
  error : Option String
  createdAt : Nat
deriving DecidableEq, Repr

/-- The identity columns of a `models.Peer` row the dispatcher could consult
(it does not). -/
structure PeerRow where
  id : Nat
  url : String
  adminEmail : String
deriving DecidableEq, Repr

/-- Ordering of notification rows by creation time (`ORDER BY created_at
ASC`). -/
def notifCreatedLe (a b : NotifRow) : Prop := a.createdAt ≤ b.createdAt

instance : DecidableRel notifCreatedLe := fun a b => Nat.decLe a.createdAt b.createdAt

instance : IsTotal NotifRow notifCreatedLe :=
  ⟨fun a b => Nat.le_total a.createdAt b.createdAt⟩

instance : IsTrans NotifRow notifCreatedLe :=
  ⟨fun _ _ _ h h' => Nat.le_trans h h'⟩

/-- `database.GetPendingNotifications`: all rows with `sent = false`, in
ascending `created_at` order (embedded as a stable sort of the filtered
table). -/
def getPendingNotifications (db : List NotifRow) : List NotifRow :=
  List.insertionSort notifCreatedLe (db.filter (fun n => !n.sent))

/-- `database.MarkNotificationSent`: set the `sent` and `error` columns of
every row with the given id. -/
def markNotificationSent (db : List NotifRow) (id : Nat) (sent : Bool)
    (err : Option String) : List NotifRow :=
  db.map (fun n => if n.id = id then { n with sent := sent, error := err } else n)

/-- One outbound email as handed to `SendEmail` (recipient, subject, body),
tagged with the id of the notification being delivered. -/
structure EmailAttempt where
  recipient : String
  subject : String
  body : String
  notifId : Nat
deriving DecidableEq, Repr

/-- The attempt `ProcessNotifications` makes for one pending row: recipient
is the `adminEmail` argument, subject is fixed, body is the row's message. -/
def emailFor (adminEmail : String) (n : NotifRow) : EmailAttempt :=
  ⟨adminEmail, "Bjishk Health Monitor Alert", n.message, n.id⟩

/-- The delivery loop of `notification.ProcessNotifications` over an already
fetched list of pending rows: send each (the oracle `send` returns `none` on
success, `some e` on failure with error `e`), then mark the row sent/failed.
Returns the attempts made and the updated table. -/
def processGo (adminEmail : String) (send : EmailAttempt → Option String) :
    List NotifRow → List NotifRow → List EmailAttempt × List NotifRow
  | [], db => ([], db)
  | n :: rest, db =>
    let db2 :=
      match send (emailFor adminEmail n) with
      | some e => markNotificationSent db n.id false (some e)
      | none => markNotificationSent db n.id true none
    let restOut := processGo adminEmail send rest db2
    (emailFor adminEmail n :: restOut.1, restOut.2)

/-- `notification.ProcessNotifications`: one dispatcher sweep. -/
def processNotifications (adminEmail : String) (send : EmailAttempt → Option String)
    (db : List NotifRow) : List EmailAttempt × List NotifRow :=
  processGo adminEmail send (getPendingNotifications db) db

/-- Modelled from the spec (the Go dispatcher has no such lookup): the
recipient §4.4/§4.5 prescribe for a notification — the peer's administrative
contact for a peer notification, and the target's configured recipient for a
service notification, falling back to the instance-wide default; the Go
configuration schema gives services no per-target recipient, so for service
rows this is the default. -/
def specRecipient (peers : List PeerRow) (defaultRecipient : String)
    (n : NotifRow) : String :=
  match n.peerId with
  | some pid =>
    match peers.find? (fun p => p.id == pid) with
    | some p => p.adminEmail
    | none => defaultRecipient
  | none => defaultRecipient

/-- Row lookup by primary key. -/
def findNotif (db : List NotifRow) (id : Nat) : Option NotifRow :=
  db.find? (fun n => n.id == id)

/-- A concrete stored service row used as a witness input: already named,
previously up, with a stored response time. -/
def namedSvc : ServiceState :=
  { url := "https://example.org", name := some "Example", caregiver := none,
    checkInterval := 60, lastCheck := some 3, status := Status.up,
    consecutiveFailures := 0, responseTime := some 42 }

/-- A concrete unsent notification row used as a witness input. -/
def notifRow1 : NotifRow :=
  ⟨1, some 1, none,
   "Service https://example.org is DOWN (3 consecutive failures). Error: timeout",
   false, none, 4⟩

/-- A concrete one-row notification table used as a witness input. -/
def notifTable : List NotifRow := [notifRow1]

/-- A send oracle standing for an SMTP server that rejects every message. -/
def failingSend : EmailAttempt → Option String := fun _ => some "smtp connection refused"

/-- Helper: a cycle whose `UpdateService` call fails changes no state and
creates no rows. -/
theorem performCheckStep_updateFail (i : Nat) (s : ServiceState) (r : CheckResult)
    (now : Nat) (f : PersistFlags) (h : f.updateOk = false) :
    performCheckStep i s r now f = ⟨s, [], []⟩ := by
  simp [performCheckStep, h]

/-- Helper: the status stored by a cycle is the probe's status when the update
succeeds, and the previous status otherwise. -/
theorem performCheckStep_state_status (i : Nat) (s : ServiceState) (r : CheckResult)
    (now : Nat) (f : PersistFlags) :
    (performCheckStep i s r now f).state.status =
      if f.updateOk = true then r.status.toStatus else s.status := by
  cases hu : f.updateOk <;>
    simp [performCheckStep, hu] <;> split_ifs <;> rfl

/-- Helper: the consecutive-failure count stored by a successful cycle. -/
theorem performCheckStep_state_failures (i : Nat) (s : ServiceState) (r : CheckResult)
    (now : Nat) (f : PersistFlags) (h : f.updateOk = true) :
    (performCheckStep i s r now f).state.consecutiveFailures =
      if r.status = PStatus.down then s.consecutiveFailures + 1 else 0 := by
  simp [performCheckStep, h] <;> split_ifs <;> rfl

/-- Helper: exact count of DOWN notifications one service cycle creates. -/
theorem performCheckStep_downNotifCount (i : Nat) (s : ServiceState) (r : CheckResult)
    (now : Nat) (f : PersistFlags) :
    downNotifCount (performCheckStep i s r now f).notifs =
      if f.updateOk = true ∧ f.notifOk = true ∧ r.status = PStatus.down ∧
          s.status ≠ Status.down ∧ 3 ≤ s.consecutiveFailures + 1 then 1 else 0 := by
  obtain ⟨u, l, nk⟩ := f
  cases u <;> cases nk <;> cases hr : r.status <;>
    simp [performCheckStep, downNotifCount, hr, PStatus.toStatus] <;>
    split_ifs <;> simp_all

/-- Helper: exact count of UP notifications one service cycle creates. -/
theorem performCheckStep_upNotifCount (i : Nat) (s : ServiceState) (r : CheckResult)
    (now : Nat) (f : PersistFlags) :
    upNotifCount (performCheckStep i s r now f).notifs =
      if f.updateOk = true ∧ f.notifOk = true ∧ r.status = PStatus.up ∧
          s.status ≠ Status.up then 1 else 0 := by
  obtain ⟨u, l, nk⟩ := f
  cases u <;> cases nk <;> cases hr : r.status <;>
    simp [performCheckStep, upNotifCount, hr, PStatus.toStatus] <;>
    first
      | (split_ifs <;> simp_all)
      | (intro a _ _ ha; subst ha; simp)

/-- Helper: DOWN-notification counts add over list concatenation. -/
theorem downNotifCount_append (a b : List CreatedNotif) :
    downNotifCount (a ++ b) = downNotifCount a + downNotifCount b := by
  simp [downNotifCount, List.filter_append]

/-- C1: the code never creates a DOWN notification for the spec's Scenario A.
Running the probe sequence [up, down, down, down, down] (failure threshold
hard-coded 3) against a fresh target creates zero DOWN notifications — not
one on the 3rd consecutive down as the claim states — because the stored
status already becomes `down` on the first failure, so at the 3rd failure
`previousStatus != newStatus` is false and there is no separate
alerted-for-this-incident flag. -/
theorem C1_scenario_creates_no_down_notification :
    downNotifCount (runChecks 1 (freshService "https://example.org" 60 none)
      [tickOk (upProbe 12) 1, tickOk (downProbe "connection refused") 2,
       tickOk (downProbe "connection refused") 3,
       tickOk (downProbe "connection refused") 4,
       tickOk (downProbe "connection refused") 5]).2 = 0 := by
  decide

/-- Helper: once the stored status is `down`, a run that processes no `up`
result creates no DOWN notification at all. -/
theorem runChecks_down_no_downNotifs (i : Nat) (s : ServiceState) (ts : List TickIn)
    (hs : s.status = Status.down) (h : ∀ t ∈ ts, t.result.status ≠ PStatus.up) :
    downNotifCount (runChecks i s ts).2 = 0 := by
  induction ts generalizing s with
  | nil => simp [runChecks, downNotifCount]
  | cons t ts ih =>
    have ht : t.result.status = PStatus.down := by
      cases hrt : t.result.status
      · exact absurd hrt (h t (List.mem_cons_self t ts))
      · rfl
    have hhead : downNotifCount (performCheckStep i s t.result t.now t.flags).notifs = 0 := by
      rw [performCheckStep_downNotifCount]
      simp [hs]
    have hstat : (performCheckStep i s t.result t.now t.flags).state.status = Status.down := by
      rw [performCheckStep_state_status]
      cases hu : t.flags.updateOk <;> simp [ht, PStatus.toStatus, hs]
    simp only [runChecks, downNotifCount_append, hhead, Nat.zero_add]
    exact ih _ hstat (fun x hx => h x (List.mem_cons_of_mem t hx))

/-- C2: between two consecutive up results (one incident), the state machine
creates at most one DOWN notification for a target: any run that processes no
`up` probe result — from an arbitrary starting row and with arbitrary
persistence outcomes — creates at most one DOWN notification. -/
theorem C2_at_most_one_down_per_incident (i : Nat) (s : ServiceState)
    (ts : List TickIn) (h : ∀ t ∈ ts, t.result.status ≠ PStatus.up) :
    downNotifCount (runChecks i s ts).2 ≤ 1 := by
  induction ts generalizing s with
  | nil => simp [runChecks, downNotifCount]
  | cons t ts ih =>
    have ht : t.result.status = PStatus.down := by
      cases hrt : t.result.status
      · exact absurd hrt (h t (List.mem_cons_self t ts))
      · rfl
    have htail : ∀ x ∈ ts, x.result.status ≠ PStatus.up :=
      fun x hx => h x (List.mem_cons_of_mem t hx)
    simp only [runChecks, downNotifCount_append]
    cases hu : t.flags.updateOk with
    | false =>
      have hhead : downNotifCount (performCheckStep i s t.result t.now t.flags).notifs = 0 := by
        rw [performCheckStep_downNotifCount]; simp [hu]
      have hstat : (performCheckStep i s t.result t.now t.flags).state.status = s.status := by
        rw [performCheckStep_state_status]; simp [hu]
      rw [hhead, Nat.zero_add]
      exact ih _ htail
    | true =>
      have hstat : (performCheckStep i s t.result t.now t.flags).state.status = Status.down := by
        rw [performCheckStep_state_status]; simp [hu, ht, PStatus.toStatus]
      have htailzero :
          downNotifCount (runChecks i (performCheckStep i s t.result t.now t.flags).state ts).2
            = 0 :=
        runChecks_down_no_downNotifs i _ ts hstat htail
      rw [htailzero]
      have hhead : downNotifCount (performCheckStep i s t.result t.now t.flags).notifs ≤ 1 := by
        rw [performCheckStep_downNotifCount]
        split_ifs <;> simp
      omega

/-- Witness for C2 at a concrete input: a fresh target probed with four
consecutive failures (threshold 3, all persistence succeeding) creates at
most one DOWN notification. -/
theorem C2_witness :
    (∀ t ∈ [tickOk (downProbe "timeout") 1, tickOk (downProbe "timeout") 2,
            tickOk (downProbe "timeout") 3, tickOk (downProbe "timeout") 4],
       t.result.status ≠ PStatus.up) ∧
    downNotifCount (runChecks 1 (freshService "https://example.org" 60 none)
      [tickOk (downProbe "timeout") 1, tickOk (downProbe "timeout") 2,
       tickOk (downProbe "timeout") 3, tickOk (downProbe "timeout") 4]).2 ≤ 1 :=
  ⟨by decide, C2_at_most_one_down_per_incident 1 _ _ (by decide)⟩

/-- Helper: a peer cycle whose `UpdatePeer` call fails changes no state and
creates no rows. -/
theorem performPeerCheckStep_updateFail (j : Nat) (p : PeerState) (q : PeerCheckResult)
    (now : Nat) (f : PersistFlags) (h : f.updateOk = false) :
    performPeerCheckStep j p q now f = ⟨p, [], []⟩ := by
  simp [performPeerCheckStep, h]

/-- Helper: the persisted peer row after a successful peer cycle. -/
theorem performPeerCheckStep_state_eq (j : Nat) (p : PeerState) (q : PeerCheckResult)
    (now : Nat) (f : PersistFlags) (h : f.updateOk = true) :
    (performPeerCheckStep j p q now f).state =
      { p with lastCheck := some now, status := q.status.toStatus,
               consecutiveFailures :=
                 if q.status = PStatus.down then p.consecutiveFailures + 1 else 0 } := by
  simp [performPeerCheckStep, h]

/-- Helper: a service cycle preserves the up-implies-zero-failures invariant. -/
theorem performCheckStep_inv (i : Nat) (s : ServiceState) (r : CheckResult)
    (now : Nat) (f : PersistFlags)
    (hs : s.status = Status.up → s.consecutiveFailures = 0) :
    (performCheckStep i s r now f).state.status = Status.up →
    (performCheckStep i s r now f).state.consecutiveFailures = 0 := by
  cases hu : f.updateOk with
  | false => rw [performCheckStep_updateFail i s r now f hu]; exact hs
  | true =>
    rw [performCheckStep_state_status, performCheckStep_state_failures i s r now f hu]
    cases hr : r.status <;> simp [hu, PStatus.toStatus]

/-- Helper: the invariant holds after any sequence of service cycles. -/
theorem runChecks_inv (i : Nat) (s : ServiceState) (ts : List TickIn)
    (hs : s.status = Status.up → s.consecutiveFailures = 0) :
    (runChecks i s ts).1.status = Status.up → (runChecks i s ts).1.consecutiveFailures = 0 := by
  induction ts generalizing s with
  | nil => exact hs
  | cons t ts ih =>
    simp only [runChecks]
    exact ih _ (performCheckStep_inv i s t.result t.now t.flags hs)

/-- Helper: a peer cycle preserves the up-implies-zero-failures invariant. -/
theorem performPeerCheckStep_inv (j : Nat) (p : PeerState) (q : PeerCheckResult)
    (now : Nat) (f : PersistFlags)
    (hp : p.status = Status.up → p.consecutiveFailures = 0) :
    (performPeerCheckStep j p q now f).state.status = Status.up →
    (performPeerCheckStep j p q now f).state.consecutiveFailures = 0 := by
  cases hu : f.updateOk with
  | false => rw [performPeerCheckStep_updateFail j p q now f hu]; exact hp
  | true =>
    rw [performPeerCheckStep_state_eq j p q now f hu]
    cases hr : q.status <;> simp [PStatus.toStatus]

/-- Helper: the invariant holds after any sequence of peer cycles. -/
theorem runPeerChecks_inv (j : Nat) (p : PeerState) (ps : List PeerTickIn)
    (hp : p.status = Status.up → p.consecutiveFailures = 0) :
    (runPeerChecks j p ps).1.status = Status.up →
    (runPeerChecks j p ps).1.consecutiveFailures = 0 := by
  induction ps generalizing p with
  | nil => exact hp
  | cons t ps ih =>
    simp only [runPeerChecks]
    exact ih _ (performPeerCheckStep_inv j p t.result t.now t.flags hp)

/-- C3: for services and peers alike, a successful cycle stores failure count
0 on an up result and previous count + 1 on a down result (so the count never
decrements while the status stays down), and along any sequence of cycles
from a row satisfying it, the stored count is 0 whenever the stored status is
up. -/
theorem C3_failure_count_invariant (i j : Nat) (s : ServiceState) (p : PeerState)
    (r : CheckResult) (q : PeerCheckResult) (now m : Nat) (f g : PersistFlags)
    (ts : List TickIn) (ps : List PeerTickIn)
    (hf : f.updateOk = true) (hg : g.updateOk = true)
    (hs : s.status = Status.up → s.consecutiveFailures = 0)
    (hp : p.status = Status.up → p.consecutiveFailures = 0) :
    (r.status = PStatus.up → (performCheckStep i s r now f).state.consecutiveFailures = 0) ∧
    (r.status = PStatus.down →
      (performCheckStep i s r now f).state.consecutiveFailures = s.consecutiveFailures + 1) ∧
    (q.status = PStatus.up → (performPeerCheckStep j p q m g).state.consecutiveFailures = 0) ∧
    (q.status = PStatus.down →
      (performPeerCheckStep j p q m g).state.consecutiveFailures = p.consecutiveFailures + 1) ∧
    ((runChecks i s ts).1.status = Status.up → (runChecks i s ts).1.consecutiveFailures = 0) ∧
    ((runPeerChecks j p ps).1.status = Status.up →
      (runPeerChecks j p ps).1.consecutiveFailures = 0) := by
  refine ⟨?_, ?_, ?_, ?_, runChecks_inv i s ts hs, runPeerChecks_inv j p ps hp⟩
  · intro hr; rw [performCheckStep_state_failures i s r now f hf]; simp [hr]
  · intro hr; rw [performCheckStep_state_failures i s r now f hf]; simp [hr]
  · intro hq; rw [performPeerCheckStep_state_eq j p q m g hg]; simp [hq]
  · intro hq; rw [performPeerCheckStep_state_eq j p q m g hg]; simp [hq]

/-- Witness for C3 at concrete inputs: a fresh service probed down once and a
fresh peer probed down once. -/
theorem C3_witness :
    ((PersistFlags.allOk.updateOk = true) ∧ (PersistFlags.allOk.updateOk = true) ∧
     ((freshService "https://example.org" 60 none).status = Status.up →
       (freshService "https://example.org" 60 none).consecutiveFailures = 0) ∧
     ((freshPeer "https://peer.example" "peer-admin@peer.example").status = Status.up →
       (freshPeer "https://peer.example" "peer-admin@peer.example").consecutiveFailures = 0)) ∧
    ((downProbe "timeout").status = PStatus.up →
      (performCheckStep 1 (freshService "https://example.org" 60 none) (downProbe "timeout") 7
        PersistFlags.allOk).state.consecutiveFailures = 0) ∧
    ((downProbe "timeout").status = PStatus.down →
      (performCheckStep 1 (freshService "https://example.org" 60 none) (downProbe "timeout") 7
        PersistFlags.allOk).state.consecutiveFailures =
        (freshService "https://example.org" 60 none).consecutiveFailures + 1) ∧
    (((⟨PStatus.down, some "refused"⟩ : PeerCheckResult).status = PStatus.up →
      (performPeerCheckStep 2 (freshPeer "https://peer.example" "peer-admin@peer.example")
        ⟨PStatus.down, some "refused"⟩ 8 PersistFlags.allOk).state.consecutiveFailures = 0)) ∧
    (((⟨PStatus.down, some "refused"⟩ : PeerCheckResult).status = PStatus.down →
      (performPeerCheckStep 2 (freshPeer "https://peer.example" "peer-admin@peer.example")
        ⟨PStatus.down, some "refused"⟩ 8 PersistFlags.allOk).state.consecutiveFailures =
        (freshPeer "https://peer.example" "peer-admin@peer.example").consecutiveFailures + 1)) ∧
    ((runChecks 1 (freshService "https://example.org" 60 none)
        [tickOk (downProbe "timeout") 1, tickOk (upProbe 9) 2]).1.status = Status.up →
      (runChecks 1 (freshService "https://example.org" 60 none)
        [tickOk (downProbe "timeout") 1, tickOk (upProbe 9) 2]).1.consecutiveFailures = 0) ∧
    ((runPeerChecks 2 (freshPeer "https://peer.example" "peer-admin@peer.example")
        [⟨⟨PStatus.down, some "refused"⟩, 1, PersistFlags.allOk⟩]).1.status = Status.up →
      (runPeerChecks 2 (freshPeer "https://peer.example" "peer-admin@peer.example")
        [⟨⟨PStatus.down, some "refused"⟩, 1, PersistFlags.allOk⟩]).1.consecutiveFailures = 0) :=
  ⟨⟨rfl, rfl, by decide, by decide⟩,
   C3_failure_count_invariant 1 2 (freshService "https://example.org" 60 none)
     (freshPeer "https://peer.example" "peer-admin@peer.example") (downProbe "timeout")
     ⟨PStatus.down, some "refused"⟩ 7 8 PersistFlags.allOk PersistFlags.allOk
     [tickOk (downProbe "timeout") 1, tickOk (upProbe 9) 2]
     [⟨⟨PStatus.down, some "refused"⟩, 1, PersistFlags.allOk⟩]
     rfl rfl (by decide) (by decide)⟩

/-- C4 counterexample: the claim says recovery from a previous status other
than `down` creates no UP notification, but a fresh target (stored status
`unknown`) whose first probe is up gets exactly one UP notification. -/
theorem C4_counterexample :
    upNotifCount (performCheckStep 1 (freshService "https://example.org" 60 none)
      (upProbe 12) 1 PersistFlags.allOk).notifs = 1 ∧
    (freshService "https://example.org" 60 none).status ≠ Status.down := by
  decide

/-- Helper: exact count of UP notifications one peer cycle creates. -/
theorem performPeerCheckStep_upNotifCount (j : Nat) (p : PeerState) (q : PeerCheckResult)
    (now : Nat) (f : PersistFlags) :
    upNotifCount (performPeerCheckStep j p q now f).notifs =
      if f.updateOk = true ∧ f.notifOk = true ∧ q.status = PStatus.up ∧
          p.status ≠ Status.up then 1 else 0 := by
  obtain ⟨u, l, nk⟩ := f
  cases u <;> cases nk <;> cases hq : q.status <;>
    simp [performPeerCheckStep, upNotifCount, hq, PStatus.toStatus] <;>
    first
      | (split_ifs <;> simp_all)
      | (intro a _ _ ha; subst ha; simp)

/-- C4 (amended): for services and peers alike, with all persistence
succeeding, an UP notification is created on a tick iff the previous stored
status differs from `up` (so also on a first successful probe of a target
whose stored status is `unknown`) and the new result is up; when it fires
exactly one UP notification is created immediately, with no threshold
condition. -/
theorem C4_up_notification_iff (i j : Nat) (s : ServiceState) (p : PeerState)
    (r : CheckResult) (q : PeerCheckResult) (now m : Nat) :
    (upNotifCount (performCheckStep i s r now PersistFlags.allOk).notifs = 1 ↔
      s.status ≠ Status.up ∧ r.status = PStatus.up) ∧
    (upNotifCount (performPeerCheckStep j p q m PersistFlags.allOk).notifs = 1 ↔
      p.status ≠ Status.up ∧ q.status = PStatus.up) := by
  constructor
  · rw [performCheckStep_upNotifCount]
    split_ifs with hc <;> simp_all [PersistFlags.allOk] <;> tauto
  · rw [performPeerCheckStep_upNotifCount]
    split_ifs with hc <;> simp_all [PersistFlags.allOk] <;> tauto

/-- C9 counterexample: a failed persistence operation does not always abandon
the remainder of the cycle — on a tick where the state update succeeds but
the log append fails, no log row is created yet a notification is still
created. -/
theorem C9_counterexample :
    (performCheckStep 1
      { freshService "https://example.org" 60 none with
          status := Status.down, consecutiveFailures := 2 }
      (upProbe 15) 9 ⟨true, false, true⟩).logs = [] ∧
    (performCheckStep 1
      { freshService "https://example.org" 60 none with
          status := Status.down, consecutiveFailures := 2 }
      (upProbe 15) 9 ⟨true, false, true⟩).notifs =
      [⟨some 1, none, NotifKind.up, serviceUpMsg "https://example.org" 15⟩] := by
  decide

/-- C9 (amended): only a failed target-state update abandons the remainder of
a cycle: when `UpdateService`/`UpdatePeer` fails, no log row and no
notification row are created, the stored row is unchanged, and the run
continues as if the tick had not happened (the next scheduled tick proceeds
normally); a failed log append or notification insert does not abandon the
cycle. -/
theorem C9_update_failure_abandons_cycle (i j : Nat) (s : ServiceState) (p : PeerState)
    (r : CheckResult) (q : PeerCheckResult) (now m : Nat) (f g : PersistFlags)
    (ts : List TickIn) (hf : f.updateOk = false) (hg : g.updateOk = false) :
    performCheckStep i s r now f = ⟨s, [], []⟩ ∧
    performPeerCheckStep j p q m g = ⟨p, [], []⟩ ∧
    runChecks i s (⟨r, now, f⟩ :: ts) = runChecks i s ts := by
  refine ⟨performCheckStep_updateFail i s r now f hf,
          performPeerCheckStep_updateFail j p q m g hg, ?_⟩
  simp [runChecks, performCheckStep_updateFail i s r now f hf]

/-- Witness for C9 at concrete inputs: a tick whose state update fails. -/
theorem C9_witness :
    (((⟨false, true, true⟩ : PersistFlags).updateOk = false) ∧
     ((⟨false, true, true⟩ : PersistFlags).updateOk = false)) ∧
    (performCheckStep 1 (freshService "https://example.org" 60 none) (downProbe "timeout") 5
        ⟨false, true, true⟩ = ⟨freshService "https://example.org" 60 none, [], []⟩ ∧
     performPeerCheckStep 2 (freshPeer "https://peer.example" "peer-admin@peer.example")
        ⟨PStatus.down, some "refused"⟩ 6 ⟨false, true, true⟩ =
        ⟨freshPeer "https://peer.example" "peer-admin@peer.example", [], []⟩ ∧
     runChecks 1 (freshService "https://example.org" 60 none)
        (⟨downProbe "timeout", 5, ⟨false, true, true⟩⟩ :: [tickOk (upProbe 3) 6]) =
       runChecks 1 (freshService "https://example.org" 60 none) [tickOk (upProbe 3) 6]) :=
  ⟨⟨rfl, rfl⟩,
   C9_update_failure_abandons_cycle 1 2 (freshService "https://example.org" 60 none)
     (freshPeer "https://peer.example" "peer-admin@peer.example") (downProbe "timeout")
     ⟨PStatus.down, some "refused"⟩ 5 6 ⟨false, true, true⟩ ⟨false, true, true⟩
     [tickOk (upProbe 3) 6] rfl rfl⟩

/-- Helper: the `response_time` column after a successful cycle. -/
theorem performCheckStep_state_responseTime (i : Nat) (s : ServiceState) (r : CheckResult)
    (now : Nat) (f : PersistFlags) (h : f.updateOk = true) :
    (performCheckStep i s r now f).state.responseTime =
      if r.responseTime > 0 then some r.responseTime else s.responseTime := by
  simp [performCheckStep, h]
  split_ifs <;> simp_all

/-- Helper: the `name` column after a successful cycle. -/
theorem performCheckStep_state_name (i : Nat) (s : ServiceState) (r : CheckResult)
    (now : Nat) (f : PersistFlags) (h : f.updateOk = true) :
    (performCheckStep i s r now f).state.name =
      if s.name = none ∧ r.title ≠ "" then some r.title else s.name := by
  simp [performCheckStep, h]
  split_ifs <;> simp_all

/-- Helper: the `last_check` column after a successful cycle. -/
theorem performCheckStep_state_lastCheck (i : Nat) (s : ServiceState) (r : CheckResult)
    (now : Nat) (f : PersistFlags) (h : f.updateOk = true) :
    (performCheckStep i s r now f).state.lastCheck = some now := by
  simp [performCheckStep, h]
  split_ifs <;> simp_all

/-- Helper: the columns a cycle never writes. -/
theorem performCheckStep_state_frame (i : Nat) (s : ServiceState) (r : CheckResult)
    (now : Nat) (f : PersistFlags) :
    (performCheckStep i s r now f).state.url = s.url ∧
    (performCheckStep i s r now f).state.caregiver = s.caregiver ∧
    (performCheckStep i s r now f).state.checkInterval = s.checkInterval := by
  cases hu : f.updateOk <;> simp [performCheckStep, hu] <;>
    split_ifs <;> simp_all

/-- Helper: every `down` result `CheckService` returns carries response time
0 (the Go code never sets `ResponseTime` on a failure path). -/
theorem checkServiceGo_down_responseTime (d : Nat) (att : Nat → SvcAttempt) :
    ∀ (fuel a : Nat), (checkServiceGo d att fuel a).1.status = PStatus.down →
      (checkServiceGo d att fuel a).1.responseTime = 0 := by
  intro fuel
  induction fuel with
  | zero =>
    intro a
    cases h : att a with
    | response code st title ms =>
      simp only [checkServiceGo, h]
      split_ifs <;> simp [failingResult]
    | reqError e => simp [checkServiceGo, h, failingResult]
    | transportError e => simp [checkServiceGo, h, failingResult]
  | succ n ih =>
    intro a
    cases h : att a with
    | response code st title ms =>
      simp only [checkServiceGo, h]
      split_ifs
      · simp
      · exact ih (a + 1)
    | reqError e => simpa only [checkServiceGo, h] using ih (a + 1)
    | transportError e => simpa only [checkServiceGo, h] using ih (a + 1)

/-- C10: frame conditions of a probe-and-record cycle.  A result with no
positive response time (in particular every `down` result, whose response
time is always 0) leaves the stored `response_time` unchanged; `name` is
written only when the stored name is absent and the probe extracted a
non-empty title; `url`, `caregiver` and `check_interval` are never touched;
`status`, `consecutive_failures` and `last_check` are written as the state
machine prescribes. -/
theorem C10_frame_conditions (i : Nat) (s : ServiceState) (r : CheckResult) (now : Nat)
    (f : PersistFlags) (hf : f.updateOk = true) (R d : Nat) (attempts : Nat → SvcAttempt) :
    ((checkService R d attempts).1.status = PStatus.down →
      (checkService R d attempts).1.responseTime = 0) ∧
    (r.responseTime = 0 → (performCheckStep i s r now f).state.responseTime = s.responseTime) ∧
    (s.name ≠ none → (performCheckStep i s r now f).state.name = s.name) ∧
    (r.title = "" → (performCheckStep i s r now f).state.name = s.name) ∧
    (s.name = none → r.title ≠ "" →
      (performCheckStep i s r now f).state.name = some r.title) ∧
    (performCheckStep i s r now f).state.url = s.url ∧
    (performCheckStep i s r now f).state.caregiver = s.caregiver ∧
    (performCheckStep i s r now f).state.checkInterval = s.checkInterval ∧
    (performCheckStep i s r now f).state.status = r.status.toStatus ∧
    (performCheckStep i s r now f).state.consecutiveFailures =
      (if r.status = PStatus.down then s.consecutiveFailures + 1 else 0) ∧
    (performCheckStep i s r now f).state.lastCheck = some now := by
  obtain ⟨hurl, hcare, hint⟩ := performCheckStep_state_frame i s r now f
  refine ⟨checkServiceGo_down_responseTime d attempts R 0, ?_, ?_, ?_, ?_, hurl, hcare, hint,
    ?_, performCheckStep_state_failures i s r now f hf,
    performCheckStep_state_lastCheck i s r now f hf⟩
  · intro hrt
    rw [performCheckStep_state_responseTime i s r now f hf]
    simp [hrt]
  · intro hname
    rw [performCheckStep_state_name i s r now f hf]
    simp_all
  · intro htitle
    rw [performCheckStep_state_name i s r now f hf]
    simp [htitle]
  · intro hname htitle
    rw [performCheckStep_state_name i s r now f hf]
    simp [hname, htitle]
  · rw [performCheckStep_state_status]
    simp [hf]

/-- Witness for C10 at concrete inputs: a named service with a stored
response time probed down. -/
theorem C10_witness :
    ((PersistFlags.allOk.updateOk = true)) ∧
    (((checkService 1 2 (fun _ => SvcAttempt.transportError "timeout")).1.status =
        PStatus.down →
      (checkService 1 2 (fun _ => SvcAttempt.transportError "timeout")).1.responseTime = 0) ∧
     ((downProbe "timeout").responseTime = 0 →
      (performCheckStep 1 namedSvc (downProbe "timeout") 11 PersistFlags.allOk).state.responseTime
        = namedSvc.responseTime) ∧
     (namedSvc.name ≠ none →
      (performCheckStep 1 namedSvc (downProbe "timeout") 11 PersistFlags.allOk).state.name
        = namedSvc.name) ∧
     ((downProbe "timeout").title = "" →
      (performCheckStep 1 namedSvc (downProbe "timeout") 11 PersistFlags.allOk).state.name
        = namedSvc.name) ∧
     (namedSvc.name = none → (downProbe "timeout").title ≠ "" →
      (performCheckStep 1 namedSvc (downProbe "timeout") 11 PersistFlags.allOk).state.name
        = some (downProbe "timeout").title) ∧
     (performCheckStep 1 namedSvc (downProbe "timeout") 11 PersistFlags.allOk).state.url
        = namedSvc.url ∧
     (performCheckStep 1 namedSvc (downProbe "timeout") 11 PersistFlags.allOk).state.caregiver
        = namedSvc.caregiver ∧
     (performCheckStep 1 namedSvc (downProbe "timeout") 11 PersistFlags.allOk).state.checkInterval
        = namedSvc.checkInterval ∧
     (performCheckStep 1 namedSvc (downProbe "timeout") 11 PersistFlags.allOk).state.status
        = (downProbe "timeout").status.toStatus ∧
     (performCheckStep 1 namedSvc (downProbe "timeout") 11 PersistFlags.allOk).state.consecutiveFailures
        = (if (downProbe "timeout").status = PStatus.down
           then namedSvc.consecutiveFailures + 1 else 0) ∧
     (performCheckStep 1 namedSvc (downProbe "timeout") 11 PersistFlags.allOk).state.lastCheck
        = some 11) :=
  ⟨rfl, C10_frame_conditions 1 namedSvc (downProbe "timeout") 11 PersistFlags.allOk rfl 1 2
     (fun _ => SvcAttempt.transportError "timeout")⟩

/-- Helper: the retry loop on attempts that all fail makes one attempt per
unit of fuel plus the final one, sleeping the fixed delay between consecutive
attempts, and returns the failing result of the last attempt. -/
theorem checkServiceGo_all_failing (d : Nat) (att : Nat → SvcAttempt) :
    ∀ (fuel a : Nat), (∀ k, k ≤ fuel → (att (a + k)).isFailing = true) →
      checkServiceGo d att fuel a =
        (failingResult (att (a + fuel)), fuel + 1, List.replicate fuel d) := by
  intro fuel
  induction fuel with
  | zero =>
    intro a h
    have h0 : (att a).isFailing = true := by simpa using h 0 (Nat.le_refl 0)
    cases hx : att a with
    | response code st title ms =>
      rw [hx] at h0
      have hcode : ¬(200 ≤ code ∧ code < 300) := by
        simp [SvcAttempt.isFailing] at h0
        omega
      simp [checkServiceGo, hx, hcode]
    | reqError e => simp [checkServiceGo, hx]
    | transportError e => simp [checkServiceGo, hx]
  | succ n ih =>
    intro a h
    have h0 : (att a).isFailing = true := by simpa using h 0 (Nat.zero_le _)
    have hshift : ∀ k, k ≤ n → (att (a + 1 + k)).isFailing = true := by
      intro k hk
      have : a + 1 + k = a + (k + 1) := by omega
      rw [this]
      exact h (k + 1) (by omega)
    have hrec := ih (a + 1) hshift
    have hidx : a + 1 + n = a + (n + 1) := by omega
    cases hx : att a with
    | response code st title ms =>
      rw [hx] at h0
      have hcode : ¬(200 ≤ code ∧ code < 300) := by
        simp [SvcAttempt.isFailing] at h0
        omega
      simp [checkServiceGo, hx, hcode, hrec, hidx, List.replicate_succ]
    | reqError e => simp [checkServiceGo, hx, hrec, hidx, List.replicate_succ]
    | transportError e => simp [checkServiceGo, hx, hrec, hidx, List.replicate_succ]

/-- C6: with retry count `R` and an endpoint failing on every attempt,
`CheckService` makes exactly `R + 1` attempts, sleeps the configured fixed
delay between consecutive attempts (`R` sleeps of `d` seconds), and returns a
`down` result whose error string describes the final failure. -/
theorem C6_retry_attempts (R d : Nat) (attempts : Nat → SvcAttempt)
    (h : ∀ k, k ≤ R → (attempts k).isFailing = true) :
    checkService R d attempts = (failingResult (attempts R), R + 1, List.replicate R d) := by
  have := checkServiceGo_all_failing d attempts R 0 (by simpa using h)
  simpa [checkService] using this

/-- Witness for C6 at a concrete input: retries = 2 against an endpoint whose
connection is always refused yields exactly 3 attempts, two 1-second sleeps,
and a down result carrying the transport error. -/
theorem C6_witness :
    (∀ k, k ≤ 2 → ((fun _ => SvcAttempt.transportError "connection refused") k).isFailing
      = true) ∧
    checkService 2 1 (fun _ => SvcAttempt.transportError "connection refused") =
      (⟨PStatus.down, 0, "", "Request failed: connection refused"⟩, 3, [1, 1]) :=
  ⟨fun _ _ => rfl, by
    rw [C6_retry_attempts 2 1 (fun _ => SvcAttempt.transportError "connection refused")
      (fun _ _ => rfl)]
    decide⟩

/-- Helper: the peer check against an endpoint that answers every attempt the
same way is up exactly when the response is 2xx and its body either decodes
with status `"ok"` or fails to decode. -/
theorem checkPeerGo_const (d : Nat) (o : PeerAttempt) :
    ∀ (fuel a : Nat), ((checkPeerGo d (fun _ => o) fuel a).1.status = PStatus.up ↔
      (o.is2xx ∧ o.bodyOkOrUndecodable)) := by
  intro fuel
  induction fuel with
  | zero =>
    intro a
    cases o with
    | response code st body =>
      by_cases hc : 200 ≤ code ∧ code < 300
      · cases body with
        | decodeFailure =>
          simp [checkPeerGo, hc, peerBodyResult, PeerAttempt.is2xx,
            PeerAttempt.bodyOkOrUndecodable]
        | decoded stt =>
          by_cases hok : stt = "ok" <;>
            simp [checkPeerGo, hc, hok, peerBodyResult, PeerAttempt.is2xx,
              PeerAttempt.bodyOkOrUndecodable]
      · simp [checkPeerGo, hc, peerFailingResult, PeerAttempt.is2xx,
          PeerAttempt.bodyOkOrUndecodable]
    | reqError e =>
      simp [checkPeerGo, peerFailingResult, PeerAttempt.is2xx,
        PeerAttempt.bodyOkOrUndecodable]
    | transportError e =>
      simp [checkPeerGo, peerFailingResult, PeerAttempt.is2xx,
        PeerAttempt.bodyOkOrUndecodable]
  | succ n ih =>
    intro a
    cases o with
    | response code st body =>
      by_cases hc : 200 ≤ code ∧ code < 300
      · cases body with
        | decodeFailure =>
          simp [checkPeerGo, hc, peerBodyResult, PeerAttempt.is2xx,
            PeerAttempt.bodyOkOrUndecodable]
        | decoded stt =>
          by_cases hok : stt = "ok" <;>
            simp [checkPeerGo, hc, hok, peerBodyResult, PeerAttempt.is2xx,
              PeerAttempt.bodyOkOrUndecodable]
      · simpa [checkPeerGo, hc] using ih (a + 1)
    | reqError e => simpa [checkPeerGo] using ih (a + 1)
    | transportError e => simpa [checkPeerGo] using ih (a + 1)

/-- C5 counterexample: a peer answering HTTP 200 with a body that fails to
decode as JSON is reported up by `CheckPeer`, although the claimed condition
(2xx and a `status` field equal to `"ok"`) does not hold for it. -/
theorem C5_counterexample_undecodable_body_up :
    (checkPeer 2 1 (fun _ => PeerAttempt.response 200 "200 OK" PeerBody.decodeFailure)).1.status
      = PStatus.up ∧
    ¬ specPeerUp (PeerAttempt.response 200 "200 OK" PeerBody.decodeFailure) := by
  constructor
  · rfl
  · decide

/-- C5 (amended): against an endpoint answering every attempt identically,
`CheckPeer` reports up iff the HTTP response is 2xx and the JSON body either
decodes with `status == "ok"` or fails to decode; so a 2xx with any decoded
status other than `"ok"` is down, and any non-2xx response or transport
failure (after retries are exhausted) is down. -/
theorem C5_peer_up_iff (R d : Nat) (o : PeerAttempt) :
    ((checkPeer R d (fun _ => o)).1.status = PStatus.up ↔
      (o.is2xx ∧ o.bodyOkOrUndecodable)) :=
  checkPeerGo_const d o R 0

/-- Helper: every email a dispatcher sweep sends is addressed to the
`adminEmail` argument. -/
theorem processGo_recipients (admin : String) (send : EmailAttempt → Option String) :
    ∀ (ns db : List NotifRow) (a : EmailAttempt),
      a ∈ (processGo admin send ns db).1 → a.recipient = admin := by
  intro ns
  induction ns with
  | nil => intro db a ha; simp [processGo] at ha
  | cons n rest ih =>
    intro db a ha
    simp only [processGo, List.mem_cons] at ha
    rcases ha with rfl | ha
    · rfl
    · exact ih _ a ha

/-- C7 counterexample: a pending notification for a peer whose administrative
contact is `peer-admin@peer.example` is delivered to the instance-wide admin
address, not to the peer's contact prescribed by the claim (the peer's
address only appears inside the message text). -/
theorem C7_counterexample_peer_admin_not_recipient :
    ((processNotifications "admin@instance.example" (fun _ => none)
        [⟨1, none, some 1,
          "Peer https://peer.example is DOWN (3 consecutive failures). Admin: peer-admin@peer.example",
          false, none, 10⟩]).1.map EmailAttempt.recipient = ["admin@instance.example"]) ∧
    specRecipient [⟨1, "https://peer.example", "peer-admin@peer.example"⟩]
        "admin@instance.example"
        ⟨1, none, some 1,
          "Peer https://peer.example is DOWN (3 consecutive failures). Admin: peer-admin@peer.example",
          false, none, 10⟩
      = "peer-admin@peer.example" ∧
    ("admin@instance.example" : String) ≠ "peer-admin@peer.example" := by
  refine ⟨rfl, rfl, by decide⟩

/-- C7 (amended): every delivery attempt of a dispatcher sweep — for service
and peer notifications alike — is addressed to the single `adminEmail`
argument (the instance-wide admin address wired in by `main`); no per-target
or per-peer recipient is ever used. -/
theorem C7_all_recipients_instance_admin (admin : String)
    (send : EmailAttempt → Option String) (db : List NotifRow) (a : EmailAttempt)
    (ha : a ∈ (processNotifications admin send db).1) : a.recipient = admin :=
  processGo_recipients admin send (getPendingNotifications db) db a ha

/-- Witness for C7 at a concrete input. -/
theorem C7_witness :
    (emailFor "admin@instance.example"
        ⟨1, some 1, none, "Service https://example.org is DOWN", false, none, 4⟩ ∈
      (processNotifications "admin@instance.example" (fun _ => none)
        [⟨1, some 1, none, "Service https://example.org is DOWN", false, none, 4⟩]).1) ∧
    (emailFor "admin@instance.example"
        ⟨1, some 1, none, "Service https://example.org is DOWN", false, none, 4⟩).recipient =
      "admin@instance.example" :=
  ⟨by decide,
   C7_all_recipients_instance_admin "admin@instance.example" (fun _ => none)
     [⟨1, some 1, none, "Service https://example.org is DOWN", false, none, 4⟩]
     (emailFor "admin@instance.example"
       ⟨1, some 1, none, "Service https://example.org is DOWN", false, none, 4⟩)
     (by decide)⟩

/-- Helper: membership in the pending query. -/
theorem mem_getPendingNotifications (db : List NotifRow) (m : NotifRow) :
    m ∈ getPendingNotifications db ↔ m ∈ db ∧ m.sent = false := by
  unfold getPendingNotifications
  rw [List.mem_insertionSort]
  simp [List.mem_filter]

/-- Helper: the pending query is sorted by creation time. -/
theorem getPendingNotifications_sorted (db : List NotifRow) :
    List.Sorted notifCreatedLe (getPendingNotifications db) :=
  List.sorted_insertionSort notifCreatedLe _

/-- Helper: looking a row up after `MarkNotificationSent` sees the update
exactly when the looked-up id is the marked one. -/
theorem findNotif_mark (db : List NotifRow) (id j : Nat) (b : Bool) (e : Option String) :
    findNotif (markNotificationSent db id b e) j =
      (findNotif db j).map
        (fun n => if n.id = id then { n with sent := b, error := e } else n) := by
  unfold findNotif markNotificationSent
  rw [List.find?_map]
  have hp : ((fun n : NotifRow => n.id == j) ∘ fun n : NotifRow =>
      if n.id = id then { n with sent := b, error := e } else n) =
      (fun n : NotifRow => n.id == j) := by
    funext x
    by_cases hx : x.id = id <;> simp [Function.comp, hx]
  rw [hp]

/-- Helper: a found row's id is the id looked up. -/
theorem findNotif_eq_some_id (db : List NotifRow) (j : Nat) (x : NotifRow)
    (h : findNotif db j = some x) : x.id = j := by
  unfold findNotif at h
  simpa using List.find?_some h

/-- Helper: in a table whose ids are unique, looking up a member row's id
finds that row. -/
theorem findNotif_of_mem_nodup (db : List NotifRow) (hnd : (db.map NotifRow.id).Nodup)
    (n : NotifRow) (hn : n ∈ db) : findNotif db n.id = some n := by
  induction db with
  | nil => cases hn
  | cons m rest ih =>
    rw [List.map_cons, List.nodup_cons] at hnd
    rcases List.mem_cons.mp hn with rfl | hmem
    · simp [findNotif]
    · have hne : ¬m.id = n.id := fun he =>
        hnd.1 (he ▸ List.mem_map_of_mem NotifRow.id hmem)
      simpa [findNotif, hne] using ih hnd.2 hmem

/-- Helper: a sweep over rows none of which has id `j` leaves the row with id
`j` untouched. -/
theorem processGo_db_untouched (admin : String) (send : EmailAttempt → Option String) :
    ∀ (ns db : List NotifRow) (j : Nat), (∀ m ∈ ns, m.id ≠ j) →
      findNotif (processGo admin send ns db).2 j = findNotif db j := by
  intro ns
  induction ns with
  | nil => intro db j _; rfl
  | cons n rest ih =>
    intro db j h
    have hn : n.id ≠ j := h n (List.mem_cons_self n rest)
    have hrest : ∀ m ∈ rest, m.id ≠ j := fun m hm => h m (List.mem_cons_of_mem n hm)
    have hmark : ∀ (b : Bool) (e : Option String),
        findNotif (markNotificationSent db n.id b e) j = findNotif db j := by
      intro b e
      rw [findNotif_mark]
      cases hfind : findNotif db j with
      | none => rfl
      | some x =>
        have hx : x.id = j := findNotif_eq_some_id db j x hfind
        have hcond : ¬x.id = n.id := by
          rw [hx]; exact fun he => hn he.symm
        simp [hcond]
    cases hs : send (emailFor admin n) <;>
      simp only [processGo, hs] <;>
      rw [ih _ j hrest] <;>
      exact hmark _ _

/-- Helper: what a sweep does to each row it processes: delivered rows are
marked `sent = true` with the error cleared, failed rows stay `sent = false`
with the delivery error recorded. -/
theorem processGo_marks (admin : String) (send : EmailAttempt → Option String) :
    ∀ (ns db : List NotifRow), ((ns.map NotifRow.id).Nodup) →
      ∀ n ∈ ns, findNotif db n.id = some n →
      findNotif (processGo admin send ns db).2 n.id =
        some (match send (emailFor admin n) with
              | none => { n with sent := true, error := none }
              | some e => { n with sent := false, error := some e }) := by
  intro ns
  induction ns with
  | nil => intro db _ n hn; cases hn
  | cons m rest ih =>
    intro db hnd n hn hfind
    rw [List.map_cons, List.nodup_cons] at hnd
    rcases List.mem_cons.mp hn with rfl | hmem
    · have hrest : ∀ x ∈ rest, x.id ≠ n.id := fun x hx he =>
        hnd.1 (he ▸ List.mem_map_of_mem NotifRow.id hx)
      cases hs : send (emailFor admin n) with
      | none =>
        simp only [processGo, hs]
        rw [processGo_db_untouched admin send rest _ n.id hrest, findNotif_mark, hfind]
        simp
      | some e =>
        simp only [processGo, hs]
        rw [processGo_db_untouched admin send rest _ n.id hrest, findNotif_mark, hfind]
        simp
    · have hne : ¬m.id = n.id := fun he =>
        hnd.1 (he ▸ List.mem_map_of_mem NotifRow.id hmem)
      have hmark : ∀ (b : Bool) (e : Option String),
          findNotif (markNotificationSent db m.id b e) n.id = some n := by
        intro b e
        rw [findNotif_mark, hfind]
        have hcond : ¬n.id = m.id := fun he => hne he.symm
        simp [hcond]
      cases hs : send (emailFor admin m) <;>
        simp only [processGo, hs] <;>
        exact ih _ hnd.2 n hmem (hmark _ _)

/-- Helper: the pending query of a table with unique ids has unique ids. -/
theorem getPendingNotifications_ids_nodup (db : List NotifRow)
    (hnd : (db.map NotifRow.id).Nodup) :
    ((getPendingNotifications db).map NotifRow.id).Nodup := by
  have hperm : List.Perm (getPendingNotifications db) (db.filter (fun n => !n.sent)) :=
    List.perm_insertionSort notifCreatedLe _
  have hsub : ((db.filter (fun n => !n.sent)).map NotifRow.id).Nodup :=
    ((List.filter_sublist db).map NotifRow.id).nodup hnd
  exact ((hperm.map NotifRow.id).nodup_iff).mpr hsub

/-- C8: a dispatcher sweep fetches exactly the rows with `sent = false`, in
ascending creation-time order; a successfully delivered row is stored with
`sent = true`, a failed delivery leaves `sent = false` and records the
delivery error, and the failed row is again in the pending set of the updated
table, so the next sweep retries it (there is no attempt counter anywhere in
the model, hence no cutoff). -/
theorem C8_dispatch_sweep (admin : String) (send : EmailAttempt → Option String)
    (db : List NotifRow) (hnd : (db.map NotifRow.id).Nodup) (m n : NotifRow)
    (hn : n ∈ getPendingNotifications db) :
    (m ∈ getPendingNotifications db ↔ m ∈ db ∧ m.sent = false) ∧
    List.Sorted notifCreatedLe (getPendingNotifications db) ∧
    (send (emailFor admin n) = none →
      findNotif (processNotifications admin send db).2 n.id =
        some { n with sent := true, error := none }) ∧
    (∀ e, send (emailFor admin n) = some e →
      findNotif (processNotifications admin send db).2 n.id =
        some { n with sent := false, error := some e } ∧
      { n with sent := false, error := some e } ∈
        getPendingNotifications (processNotifications admin send db).2) := by
  have hpnd := getPendingNotifications_ids_nodup db hnd
  have hmemdb : n ∈ db := ((mem_getPendingNotifications db n).mp hn).1
  have hfind : findNotif db n.id = some n := findNotif_of_mem_nodup db hnd n hmemdb
  have hmain := processGo_marks admin send (getPendingNotifications db) db hpnd n hn hfind
  refine ⟨mem_getPendingNotifications db m, getPendingNotifications_sorted db, ?_, ?_⟩
  · intro hs
    rw [hs] at hmain
    exact hmain
  · intro e hs
    rw [hs] at hmain
    refine ⟨hmain, ?_⟩
    rw [mem_getPendingNotifications]
    refine ⟨?_, rfl⟩
    have : findNotif (processNotifications admin send db).2 n.id =
        some { n with sent := false, error := some e } := hmain
    unfold findNotif at this
    exact List.mem_of_find?_eq_some this

/-- Witness for C8 at a concrete input: a table with one unsent notification
and an SMTP server that rejects the delivery. -/
theorem C8_witness :
    (((notifTable.map NotifRow.id).Nodup) ∧ notifRow1 ∈ getPendingNotifications notifTable) ∧
    ((notifRow1 ∈ getPendingNotifications notifTable ↔
        notifRow1 ∈ notifTable ∧ notifRow1.sent = false) ∧
     List.Sorted notifCreatedLe (getPendingNotifications notifTable) ∧
     (failingSend (emailFor "admin@instance.example" notifRow1) = none →
       findNotif (processNotifications "admin@instance.example" failingSend notifTable).2
           notifRow1.id = some { notifRow1 with sent := true, error := none }) ∧
     (∀ e, failingSend (emailFor "admin@instance.example" notifRow1) = some e →
       findNotif (processNotifications "admin@instance.example" failingSend notifTable).2
           notifRow1.id = some { notifRow1 with sent := false, error := some e } ∧
       { notifRow1 with sent := false, error := some e } ∈
         getPendingNotifications
           (processNotifications "admin@instance.example" failingSend notifTable).2)) :=
  ⟨⟨by decide, by decide⟩,
   C8_dispatch_sweep "admin@instance.example" failingSend notifTable (by decide)
     notifRow1 notifRow1 (by decide)⟩

end Bjishk
